import Mathlib

/-!
Verification of the RAG chat server (document pipeline, context retriever,
chat responder, session store, realtime gateway).

Shallow embedding conventions:
* Similarity scores and embedding coordinates are rationals (`ℚ`).
* External service calls (embedding API, chat completion, vector index) are
  modelled as explicit parameters or as an environment model of the hosted
  vector index; fallible calls use `Except String`.
* JavaScript `try { ... } catch { ... }` becomes an `Except`-valued auxiliary
  function plus a catch-all wrapper.
* JavaScript truthiness on strings (`context ? a : b`, `x || d`) is modelled
  by an explicit emptiness / `Option` test, matching the source expression.
-/

namespace RagChat

/-- Chunk metadata as stored in the vector index (`DocumentChunk.metadata`
in pinecone.ts, plus the `text` field added by `upsertDocumentChunks`;
`text` is optional because a raw query match may lack it). -/
structure ChunkMeta where
  documentId : Nat
  documentName : String
  userId : Nat
  chunkIndex : Nat
  pageNumber : Option Nat
  text : Option String
deriving DecidableEq

/-- A vector stored in the hosted index: id, embedding values, metadata.
Mirrors the payload built by `upsertDocumentChunks` (pinecone.ts lines 141-148). -/
structure StoredVector where
  id : String
  values : List ℚ
  metadata : ChunkMeta
deriving DecidableEq

/-- A raw match as returned by the vector-index query API: the score and the
metadata are optional in the service response (pinecone.ts lines 172-177 read
`match.score || 0` and `(match.metadata as any)?.text || ""`). -/
structure RawMatch where
  id : String
  score : Option ℚ
  metadata : Option ChunkMeta
deriving DecidableEq

/-- The `SearchResult` shape produced by `searchSimilarChunks`
(pinecone.ts lines 94-105).  `metadata` stays optional because the source
merely casts `match.metadata as any`, which passes `undefined` through. -/
structure SearchResult where
  id : String
  score : ℚ
  metadata : Option ChunkMeta
  text : String
deriving DecidableEq

/-- Mapping of one raw query match to a `SearchResult`
(pinecone.ts lines 172-177): absent score defaults to 0, absent metadata
text defaults to the empty string; a present-but-empty text is also mapped
to `""` by JavaScript `|| ""`, which coincides with `Option.getD` here
because the value it defaults to is itself `""`. -/
def mapMatch (m : RawMatch) : SearchResult :=
  { id := m.id
    score := m.score.getD 0
    metadata := m.metadata
    text := (m.metadata.bind ChunkMeta.text).getD "" }

/-- The body of `searchSimilarChunks` after the query returns: map every
match; an absent match list maps to `[]` (pinecone.ts line 172 and 177,
`response.matches?.map(...) || []`). -/
def searchResultsOfResponse (ms : Option (List RawMatch)) : List SearchResult :=
  (ms.map (List.map mapMatch)).getD []

/-- Environment model of the hosted vector-index query with a metadata
filter (the Pinecone `index.query({vector, topK, filter: {userId},
includeMetadata: true})` call at pinecone.ts lines 165-170).  The service
contract: only vectors whose metadata passes the filter are candidates
(hard filter), the candidates are ranked by similarity score descending,
and the best `topK` are returned with their metadata and score. -/
def pineconeQuery (index : List StoredVector) (score : StoredVector → ℚ)
    (topK : Nat) (uid : Nat) : List RawMatch :=
  ((((index.filter (fun v => v.metadata.userId = uid)).insertionSort
      (fun a b => score b ≤ score a)).take topK).map
    (fun v => { id := v.id, score := some (score v), metadata := some v.metadata }))

/-- `searchSimilarChunks` run against the environment model of the index
(pinecone.ts lines 157-182, success path). -/
def searchSimilarChunksEnv (index : List StoredVector) (score : StoredVector → ℚ)
    (topK : Nat) (uid : Nat) : List SearchResult :=
  searchResultsOfResponse (some (pineconeQuery index score topK uid))

/-- Rendering of `result.metadata.pageNumber || 'unknown'`
(langchain.ts line 101): JavaScript `||` treats the number 0 as falsy, so
both an absent page number and page number 0 render as "unknown". -/
def pageStr (p : Option Nat) : String :=
  match p with
  | some n => if n = 0 then "unknown" else toString n
  | none => "unknown"

/-- Formatting of one surviving search result
(langchain.ts line 101): the template
`[documentName, page N]: text`.  Returns `none` when the result carries no
metadata, modelling the TypeError that `result.metadata.documentName`
would throw in that case. -/
def formatResult (r : SearchResult) : Option String :=
  r.metadata.map (fun md =>
    "[" ++ md.documentName ++ ", page " ++ pageStr md.pageNumber ++ "]: " ++ r.text)

/-- The survivors of the similarity-score threshold
(langchain.ts line 100: `results.filter(result => result.score > 0.7)`). -/
def contextSurvivors (results : List SearchResult) : List SearchResult :=
  results.filter (fun r => (7 : ℚ)/10 < r.score)

/-- Left-to-right formatting of a result list, as the JavaScript `.map`
callback runs: the first metadata-less element throws. -/
def fmtListE : List SearchResult → Except String (List String)
  | [] => Except.ok []
  | r :: rs =>
    match formatResult r with
    | none => Except.error "TypeError"
    | some s =>
      match fmtListE rs with
      | Except.error e => Except.error e
      | Except.ok ss => Except.ok (s :: ss)

/-- The context-assembly expression of `generateContextFromQuery`
(langchain.ts lines 99-102): filter by score, format each survivor, join
with a blank line.  `Except` carries the TypeError of a metadata-less
survivor up to the enclosing catch. -/
def contextOfResultsE (results : List SearchResult) : Except String String :=
  Except.map (String.intercalate "\n\n") (fmtListE (contextSurvivors results))

/-- The body of `generateContextFromQuery` before the catch-all
(langchain.ts lines 86-104), with the two awaited service calls as
parameters: the query embedding and the search. -/
def generateContextFromQueryAux (embedR : Except String (List ℚ))
    (searchR : List ℚ → Except String (List SearchResult)) : Except String String :=
  match embedR with
  | Except.error msg => Except.error msg
  | Except.ok e =>
    match searchR e with
    | Except.error msg => Except.error msg
    | Except.ok results =>
      if results.length = 0 then Except.ok ""
      else contextOfResultsE results

/-- `generateContextFromQuery` (langchain.ts lines 82-109): the catch-all
turns every failure into the empty string, so the function always returns a
plain string. -/
def generateContextFromQuery (embedR : Except String (List ℚ))
    (searchR : List ℚ → Except String (List SearchResult)) : String :=
  match generateContextFromQueryAux embedR searchR with
  | Except.ok s => s
  | Except.error _ => ""

/-- Chat message shape sent to the completion API (openai.ts lines 8-11). -/
structure ChatMessage where
  role : String
  content : String
deriving DecidableEq

/-- Truthiness of the optional `context` parameter of `generateChatResponse`
(openai.ts line 31, `context ? ... : ...`): an absent context and an empty
string are both falsy in JavaScript. -/
def strTruthy (s : Option String) : Bool :=
  match s with
  | some t => !t.isEmpty
  | none => false

/-- The context-section label that opens the context framing inside the
system instruction (openai.ts line 31). -/
def contextLabel : String :=
  "Here is relevant context from the user\x27s documents:"

/-- The system-instruction text built by `generateChatResponse`
(openai.ts lines 27-38), transcribing the template literal with its
indentation whitespace. -/
def systemContent (context : Option String) : String :=
  "You are a helpful AI assistant powered by GPT-4. You have access to a knowledge base through RAG (Retrieval-Augmented Generation).\n      \n      " ++
  (if strTruthy context then
    contextLabel ++ "\n      \n      " ++ context.getD "" ++
      "\n      \n      Use this context to provide accurate and relevant responses. If the context doesn\x27t contain relevant information, you can still provide general assistance."
  else
    "Provide helpful and accurate responses to user queries.") ++
  "\n      \n      Always be concise, helpful, and cite sources when using information from the provided context."

/-- The message list passed to the completion API
(openai.ts line 42, `[systemMessage, ...messages]`). -/
def buildApiMessages (messages : List ChatMessage) (context : Option String) : List ChatMessage :=
  { role := "system", content := systemContent context } :: messages

/-- Chat session record (storage.ts; timestamps as abstract ticks). -/
structure ChatSession where
  id : Nat
  userId : Nat
  title : String
  lastMessage : Option String
  createdAt : Nat
  updatedAt : Nat
deriving DecidableEq

/-- Message record (storage.ts).  `sources` models the JSON column: `none`
is `null`, `some true` is the `{ hasContext: true }` marker the gateway
stores. -/
structure Message where
  id : Nat
  sessionId : Nat
  role : String
  content : String
  sources : Option Bool
  createdAt : Nat
deriving DecidableEq

/-- The in-memory store (`MemStorage`, storage.ts lines 225-368).  The two
`Map`s are modelled as lists in insertion order; keys are the records'
`id` fields, unique because they come from the monotone counters. -/
structure Storage where
  chatSessions : List ChatSession
  messages : List Message
  currentMessageId : Nat
deriving DecidableEq

/-- `MemStorage.getChatSession` (storage.ts lines 309-311). -/
def getChatSession (st : Storage) (id : Nat) : Option ChatSession :=
  st.chatSessions.find? (fun s => s.id = id)

/-- `MemStorage.createMessage` (storage.ts lines 357-367). -/
def createMessage (st : Storage) (sessionId : Nat) (role content : String)
    (sources : Option Bool) (now : Nat) : Storage × Message :=
  let m : Message :=
    { id := st.currentMessageId, sessionId := sessionId, role := role,
      content := content, sources := sources, createdAt := now }
  ({ st with messages := st.messages ++ [m], currentMessageId := st.currentMessageId + 1 }, m)

/-- `MemStorage.getMessagesBySessionId` (storage.ts lines 351-355): filter
by session, sort ascending by creation time. -/
def getMessagesBySessionId (st : Storage) (sid : Nat) : List Message :=
  (st.messages.filter (fun m => m.sessionId = sid)).insertionSort
    (fun a b => a.createdAt ≤ b.createdAt)

/-- `MemStorage.updateChatSession` specialised to the one update the
gateway performs, setting `lastMessage` (storage.ts lines 333-340): a
missing session leaves the store unchanged, otherwise the record is
replaced by the merged one with a fresh `updatedAt`. -/
def updateChatSessionLastMessage (st : Storage) (id : Nat) (lm : String) (now : Nat) : Storage :=
  match st.chatSessions.find? (fun s => s.id = id) with
  | none => st
  | some _ =>
    { st with chatSessions :=
        st.chatSessions.map (fun s =>
          if s.id = id then { s with lastMessage := some lm, updatedAt := now } else s) }

/-- `MemStorage.deleteChatSession` (storage.ts lines 342-349): delete every
message of the session (by id, which coincides with filtering by
`sessionId` since message ids are unique keys), then delete the session;
the returned flag is `Map.delete`'s result. -/
def deleteChatSession (st : Storage) (id : Nat) : Storage × Bool :=
  ({ st with
      messages := st.messages.filter (fun m => ¬ m.sessionId = id),
      chatSessions := st.chatSessions.filter (fun s => ¬ s.id = id) },
   st.chatSessions.any (fun s => s.id = id))

/-- Number of stored messages belonging to one session. -/
def messageCount (st : Storage) (sid : Nat) : Nat :=
  (st.messages.filter (fun m => m.sessionId = sid)).length

/-- The last-message preview computed by the gateway
(routes, ws handler: `content.length > 100 ? content.substring(0, 100) + '...' : content`). -/
def lastMessagePreview (content : String) : String :=
  if content.length > 100 then content.take 100 ++ "..." else content

/-- Outbound frames the ws handler can send for one inbound message. -/
inductive OutMsg where
  | errorMsg (msg : String)
  | chatResponse (userMessage aiMessage : Message)
deriving DecidableEq

/-- The conversation history the ws handler hands to the responder: load
the session messages after the user message was saved, keep the last 10
(`messages.slice(-10)`), and map to the role/content shape. -/
def gatewayHistory (st : Storage) (sessionId : Nat) (content : String) (now : Nat) :
    List (String × String) :=
  let r1 := createMessage st sessionId "user" content none now
  let msgs := getMessagesBySessionId r1.1 sessionId
  (msgs.drop (msgs.length - 10)).map (fun m => (m.role, m.content))

/-- The ws `chat_message` handler (routes file, `wss.on('connection')`
message callback).  The two awaited model calls are parameters: `ctx` is
the string `generateContextFromQuery` returned (that function never
throws), and `respond` is `generateChatResponse` over the truncated
history and the context, which may throw.  A throw after the user message
was saved lands in the outer catch, which sends a generic error frame. -/
def handleChatMessage (st : Storage) (sessionId : Nat) (content : String) (userId : Nat)
    (ctx : String) (respond : List (String × String) → String → Except String String)
    (now : Nat) : Storage × List OutMsg :=
  match getChatSession st sessionId with
  | none => (st, [OutMsg.errorMsg "Unauthorized"])
  | some s =>
    if s.userId ≠ userId then
      (st, [OutMsg.errorMsg "Unauthorized"])
    else
      let r1 := createMessage st sessionId "user" content none now
      match respond (gatewayHistory st sessionId content now) ctx with
      | Except.error _ => (r1.1, [OutMsg.errorMsg "Failed to process message"])
      | Except.ok respText =>
        let r2 := createMessage r1.1 sessionId "assistant" respText
          (if ctx.isEmpty then none else some true) now
        let st3 := updateChatSessionLastMessage r2.1 sessionId (lastMessagePreview content) now
        (st3, [OutMsg.chatResponse r1.2 r2.2])

/-- A chunk assembled by `processDocument` (langchain.ts lines 53-62):
`metadata` carries no page number and no text field at this stage. -/
structure DocumentChunk where
  id : String
  text : String
  metadata : ChunkMeta
deriving DecidableEq

/-- Error provenance inside `processDocument`.  The source throws `Error`
values with distinct messages; the constructors record which throw
happened (the outer catch re-wraps the message, which does not change the
provenance). -/
inductive DocError where
  | unsupportedType (mime : String)
  | emptyDocument
  | upstream (msg : String)
deriving DecidableEq

/-- Observable side-effecting calls of the document pipeline: one embedding
call per chunk, one batch upsert. -/
inductive DocEvent where
  | embedCall (text : String)
  | upsertCall (n : Nat)
deriving DecidableEq

/-- Chunk assembly from the splitter output (langchain.ts lines 53-62):
ids are `documentId-index`. -/
def mkDocumentChunks (chunks : List String) (documentId : Nat)
    (documentName : String) (userId : Nat) : List DocumentChunk :=
  chunks.enum.map (fun p =>
    { id := toString documentId ++ "-" ++ toString p.1
      text := p.2
      metadata :=
        { documentId := documentId, documentName := documentName, userId := userId,
          chunkIndex := p.1, pageNumber := none, text := none } })

/-- Model of the JavaScript built-in `String.prototype.trim` used at
langchain.ts line 40 (`!text.trim()`): strip leading and trailing
whitespace.  Defined over the character list so that it evaluates. -/
def jsTrim (s : String) : String :=
  String.mk (((s.data.dropWhile Char.isWhitespace).reverse.dropWhile
    Char.isWhitespace).reverse)

/-- Collecting the embeddings of all chunks (langchain.ts lines 65-67,
`Promise.all` over one embedding call per chunk): succeeds with one vector
per chunk, fails when any call fails. -/
def embedAllE (embed : String → Except String (List ℚ)) :
    List DocumentChunk → Except String (List (List ℚ))
  | [] => Except.ok []
  | c :: cs =>
    match embed c.text with
    | Except.error e => Except.error e
    | Except.ok v =>
      match embedAllE embed cs with
      | Except.error e => Except.error e
      | Except.ok vs => Except.ok (v :: vs)

/-- Result shape of `processDocument` (langchain.ts lines 7-10, 72-75). -/
structure ProcessedDocument where
  chunks : List DocumentChunk
  pageCount : Option Nat
deriving DecidableEq

/-- `processDocument` (langchain.ts lines 12-80), with the file content
already read (`fileText`), the text splitter and the two awaited service
calls as parameters, and the trace of embedding/upsert calls as a second
component.  All embedding calls are dispatched together (`Promise.all`),
so the trace contains one embed event per chunk even when one of them
fails; the upsert event appears once the batch write is attempted. -/
def processDocument (fileText : String) (documentId : Nat) (documentName : String)
    (userId : Nat) (mimeType : String) (split : String → List String)
    (embed : String → Except String (List ℚ)) (upsertR : Except String Unit) :
    Except DocError ProcessedDocument × List DocEvent :=
  if mimeType = "text/plain" ∨ mimeType = "application/pdf" ∨
      mimeType = "application/vnd.openxmlformats-officedocument.wordprocessingml.document" then
    if jsTrim fileText = "" then
      (Except.error DocError.emptyDocument, [])
    else
      let documentChunks := mkDocumentChunks (split fileText) documentId documentName userId
      let embedEvents := documentChunks.map (fun c => DocEvent.embedCall c.text)
      match embedAllE embed documentChunks with
      | Except.error e => (Except.error (DocError.upstream e), embedEvents)
      | Except.ok _ =>
        match upsertR with
        | Except.error e =>
          (Except.error (DocError.upstream e),
           embedEvents ++ [DocEvent.upsertCall documentChunks.length])
        | Except.ok _ =>
          (Except.ok { chunks := documentChunks, pageCount := some 1 },
           embedEvents ++ [DocEvent.upsertCall documentChunks.length])
  else
    (Except.error (DocError.unsupportedType mimeType), [])

/-- Observable calls against the hosted vector-index service during
initialization and the first write.  `describeIndexReady` is the readiness
report the client API offers; it is part of the event vocabulary so that
its absence from a trace is expressible. -/
inductive PineEvent where
  | listIndexes
  | createIndex (dim : Nat) (metric : String)
  | waitFixedDelay (ms : Nat)
  | describeIndexReady
  | upsert (n : Nat)
deriving DecidableEq

/-- Trace of `initializePinecone` (pinecone.ts lines 107-135): list the
indexes; when the index is absent, create it with dimension 1536 and the
cosine metric and sleep a fixed 10000 ms. -/
def initializePineconeTrace (indexExists : Bool) : List PineEvent :=
  if indexExists then
    [PineEvent.listIndexes]
  else
    [PineEvent.listIndexes, PineEvent.createIndex 1536 "cosine", PineEvent.waitFixedDelay 10000]

/-- Trace of `upsertDocumentChunks` over `n` chunks
(pinecone.ts lines 137-155): initialize, then one batch upsert. -/
def upsertDocumentChunksTrace (indexExists : Bool) (n : Nat) : List PineEvent :=
  initializePineconeTrace indexExists ++ [PineEvent.upsert n]

/-- Recognizer for a readiness report of the collection. -/
def isReadinessReport (e : PineEvent) : Bool :=
  match e with
  | PineEvent.describeIndexReady => true
  | _ => false

/-- Recognizer for a write against the collection. -/
def isWrite (e : PineEvent) : Bool :=
  match e with
  | PineEvent.upsert _ => true
  | _ => false

/-- Formalization of the claimed temporal property: before the first write
of the trace there is a point where the collection reports ready. -/
def readyReportBeforeFirstWrite (trace : List PineEvent) : Bool :=
  match trace.findIdx? isWrite with
  | none => true
  | some j => (trace.take j).any isReadinessReport

/-! Theorems. -/

/-- Tying `searchSimilarChunksEnv` to the underlying query result. -/
lemma searchSimilarChunksEnv_eq (index : List StoredVector) (score : StoredVector → ℚ)
    (topK uid : Nat) :
    searchSimilarChunksEnv index score topK uid =
      (pineconeQuery index score topK uid).map mapMatch := rfl

/-- C1: multi-tenant isolation.  Every result of `searchSimilarChunks`
against any mixed-ownership index carries metadata owned by the querying
user, and so does every threshold survivor that `generateContextFromQuery`
incorporates into the context string: the `userId` restriction is a hard
filter on the search, not a ranking signal. -/
theorem multiTenantIsolation (index : List StoredVector) (score : StoredVector → ℚ)
    (topK uid : Nat) :
    (∀ r ∈ searchSimilarChunksEnv index score topK uid,
      ∃ md, r.metadata = some md ∧ md.userId = uid)
    ∧ (∀ r ∈ contextSurvivors (searchSimilarChunksEnv index score topK uid),
      ∃ md, r.metadata = some md ∧ md.userId = uid) := by
  have h1 : ∀ r ∈ searchSimilarChunksEnv index score topK uid,
      ∃ md, r.metadata = some md ∧ md.userId = uid := by
    intro r hr
    rw [searchSimilarChunksEnv_eq] at hr
    obtain ⟨raw, hraw, rfl⟩ := List.mem_map.mp hr
    simp only [pineconeQuery] at hraw
    obtain ⟨v, hv, rfl⟩ := List.mem_map.mp hraw
    have hv1 := List.mem_of_mem_take hv
    have hv2 := (List.perm_insertionSort
      (fun a b => score b ≤ score a) _).mem_iff.mp hv1
    have hid := (List.mem_filter.mp hv2).2
    exact ⟨v.metadata, rfl, by simpa using hid⟩
  exact ⟨h1, fun r hr => h1 r (List.mem_of_mem_filter hr)⟩

/-- Witness for C1 on a mixed-ownership index: two stored vectors owned by
users 1 and 2, queried for user 1. -/
theorem multiTenantIsolation_witness :
    (∃ md, (mapMatch ⟨"1-0", some 1, some ⟨1, "doc", 1, 0, none, some "hello"⟩⟩).metadata
        = some md ∧ md.userId = 1) :=
  (multiTenantIsolation
      [⟨"1-0", [1], ⟨1, "doc", 1, 0, none, some "hello"⟩⟩,
       ⟨"2-0", [1], ⟨2, "other", 2, 0, none, some "secret"⟩⟩]
      (fun _ => 1) 5 1).1
    (mapMatch ⟨"1-0", some 1, some ⟨1, "doc", 1, 0, none, some "hello"⟩⟩)
    (List.mem_singleton.mpr rfl)

/-- C2: retrieval is best-effort.  `generateContextFromQuery` returns the
empty string whenever the query embedding fails, the index search fails,
the search yields zero results or zero survivors of the score threshold,
or the body throws anywhere; it never surfaces an error. -/
theorem generateContextFromQuery_bestEffort (embedR : Except String (List ℚ))
    (searchR : List ℚ → Except String (List SearchResult)) :
    (∀ msg, embedR = Except.error msg → generateContextFromQuery embedR searchR = "")
    ∧ (∀ e msg, embedR = Except.ok e → searchR e = Except.error msg →
        generateContextFromQuery embedR searchR = "")
    ∧ (∀ e results, embedR = Except.ok e → searchR e = Except.ok results →
        contextSurvivors results = [] → generateContextFromQuery embedR searchR = "")
    ∧ (∀ msg, generateContextFromQueryAux embedR searchR = Except.error msg →
        generateContextFromQuery embedR searchR = "") := by
  refine ⟨?_, ?_, ?_, ?_⟩
  · intro msg h
    subst h
    rfl
  · intro e msg he hs
    simp [generateContextFromQuery, generateContextFromQueryAux, he, hs]
  · intro e results he hs hsurv
    have hctx : contextOfResultsE results = Except.ok "" := by
      unfold contextOfResultsE
      rw [hsurv]
      rfl
    by_cases hlen : results.length = 0
    · simp [generateContextFromQuery, generateContextFromQueryAux, he, hs, hlen]
    · simp [generateContextFromQuery, generateContextFromQueryAux, he, hs, hlen, hctx]
  · intro msg h
    simp [generateContextFromQuery, h]

/-- Witness for C2: a failed embedding call yields the empty context. -/
theorem generateContextFromQuery_bestEffort_witness :
    generateContextFromQuery (Except.error "Failed to generate embedding")
      (fun _ => Except.ok []) = "" :=
  (generateContextFromQuery_bestEffort (Except.error "Failed to generate embedding")
    (fun _ => Except.ok [])).1 "Failed to generate embedding" rfl

/-- C8: deleting a chat session removes every message of the session (its
message count drops to 0) and the session record, which is no longer
retrievable through `getChatSession`. -/
theorem deleteChatSession_complete (st : Storage) (id : Nat) :
    messageCount (deleteChatSession st id).1 id = 0
    ∧ getChatSession (deleteChatSession st id).1 id = none := by
  constructor
  · simp only [messageCount, deleteChatSession, List.filter_filter]
    rw [List.length_eq_zero, List.filter_eq_nil_iff]
    intro a _
    simp
  · simp only [getChatSession, deleteChatSession]
    rw [List.find?_eq_none]
    intro x hx
    have hne := (List.mem_filter.mp hx).2
    simpa using hne

/-- C10: a query match without a similarity score maps to a search result
with score 0 (and empty text when the metadata text field is absent), so
it can never survive the strict 0.7 threshold of
`generateContextFromQuery`. -/
theorem missingScoreDefaults (ms : List RawMatch) (m : RawMatch)
    (hm : m ∈ ms) (hs : m.score = none) :
    (mapMatch m).score = 0
    ∧ (m.metadata.bind ChunkMeta.text = none → (mapMatch m).text = "")
    ∧ mapMatch m ∈ searchResultsOfResponse (some ms)
    ∧ mapMatch m ∉ contextSurvivors (searchResultsOfResponse (some ms)) := by
  refine ⟨by simp [mapMatch, hs], fun h => by simp [mapMatch, h], ?_, ?_⟩
  · show mapMatch m ∈ ms.map mapMatch
    exact List.mem_map_of_mem _ hm
  · intro hmem
    have h2 := (List.mem_filter.mp hmem).2
    simp only [mapMatch, hs, Option.getD_none] at h2
    norm_num at h2

/-- Witness for C10 at a concrete scoreless, metadata-less match. -/
theorem missingScoreDefaults_witness :
    (mapMatch ⟨"x", none, none⟩).score = 0
    ∧ ((⟨"x", none, none⟩ : RawMatch).metadata.bind ChunkMeta.text = none →
        (mapMatch ⟨"x", none, none⟩).text = "")
    ∧ mapMatch ⟨"x", none, none⟩ ∈ searchResultsOfResponse (some [⟨"x", none, none⟩])
    ∧ mapMatch ⟨"x", none, none⟩ ∉
        contextSurvivors (searchResultsOfResponse (some [⟨"x", none, none⟩])) :=
  missingScoreDefaults [⟨"x", none, none⟩] ⟨"x", none, none⟩
    (List.mem_singleton.mpr rfl) rfl

/-- C7, counterexample: when the collection is absent, the pipeline's
trace up to and including the first write contains no point at which the
newly created collection reports ready — the code only sleeps for a fixed
10 seconds — so the claimed readiness-blocking property is false. -/
theorem collectionBootstrap_noReadinessReport :
    (upsertDocumentChunksTrace false 3).any isWrite = true
    ∧ readyReportBeforeFirstWrite (upsertDocumentChunksTrace false 3) = false :=
  ⟨rfl, rfl⟩

/-- C7, amended: when the collection is absent, the pipeline creates it
with dimensionality 1536 and the cosine metric and waits a fixed 10000 ms
delay, all before the first write; when it exists, it writes directly. -/
theorem collectionBootstrap_fixedDelay (n : Nat) :
    upsertDocumentChunksTrace false n =
      [PineEvent.listIndexes, PineEvent.createIndex 1536 "cosine",
       PineEvent.waitFixedDelay 10000, PineEvent.upsert n]
    ∧ upsertDocumentChunksTrace true n = [PineEvent.listIndexes, PineEvent.upsert n] :=
  ⟨rfl, rfl⟩

/-- Formatting the survivors succeeds and agrees with a one-pass
filter-and-format whenever every survivor carries metadata. -/
lemma fmtListE_survivors (l : List SearchResult)
    (h : ∀ r ∈ l, (7:ℚ)/10 < r.score → (formatResult r).isSome) :
    fmtListE (contextSurvivors l) =
      Except.ok (l.filterMap (fun r =>
        if (7:ℚ)/10 < r.score then formatResult r else none)) := by
  induction l with
  | nil => rfl
  | cons a l ih =>
    have ih' := ih (fun r hr hsc => h r (List.mem_cons_of_mem a hr) hsc)
    simp only [contextSurvivors, List.filter_cons, List.filterMap_cons] at ih' ⊢
    by_cases hp : (7:ℚ)/10 < a.score
    · obtain ⟨s, hsome⟩ := Option.isSome_iff_exists.mp (h a (List.mem_cons_self a l) hp)
      simp [hp, hsome, fmtListE, ih']
    · simpa [hp] using ih'

/-- C4: context assembly keeps exactly the results with score strictly
above 0.7, formats each survivor as the bracketed document/page entry,
and joins the entries with a blank line, preserving the order of the
search results. -/
theorem contextAssembly (results : List SearchResult)
    (h : ∀ r ∈ results, (7:ℚ)/10 < r.score → (formatResult r).isSome) :
    contextOfResultsE results =
      Except.ok (String.intercalate "\n\n"
        (results.filterMap (fun r =>
          if (7:ℚ)/10 < r.score then formatResult r else none)))
    ∧ (∀ r, r ∈ contextSurvivors results ↔ r ∈ results ∧ (7:ℚ)/10 < r.score) := by
  constructor
  · unfold contextOfResultsE
    rw [fmtListE_survivors results h]
    rfl
  · intro r
    simp [contextSurvivors, List.mem_filter]

/-- Witness for C4: one low-score and one high-score result; only the
high-score one is kept and formatted. -/
theorem contextAssembly_witness :
    contextOfResultsE
        [⟨"a", 1/2, some ⟨1, "docA", 1, 0, none, some "low"⟩, "low"⟩,
         ⟨"b", 9/10, some ⟨1, "docB", 1, 1, none, some "high"⟩, "high"⟩] =
      Except.ok "[docB, page unknown]: high" := by
  have h := contextAssembly
    [⟨"a", 1/2, some ⟨1, "docA", 1, 0, none, some "low"⟩, "low"⟩,
     ⟨"b", 9/10, some ⟨1, "docB", 1, 1, none, some "high"⟩, "high"⟩]
    (by
      intro r hr hsc
      simp only [List.mem_cons, List.not_mem_nil, or_false] at hr
      rcases hr with rfl | rfl <;> rfl)
  refine h.1.trans ?_
  norm_num [formatResult, pageStr, String.intercalate, List.filterMap_cons]
  rfl

set_option maxRecDepth 40000

/-- C5: the leading system instruction of `generateChatResponse` contains
the context string verbatim when the context is non-empty, contains no
context-labeled section when the context is empty, and is placed ahead of
the given history messages in the API call. -/
theorem chatResponder_instruction (messages : List ChatMessage) (context : String) :
    buildApiMessages messages (some context) =
      { role := "system", content := systemContent (some context) } :: messages
    ∧ (context ≠ "" → ∃ pre post, systemContent (some context) = pre ++ context ++ post)
    ∧ (context = "" → ¬ (contextLabel.toList <:+: (systemContent (some context)).toList)) := by
  refine ⟨rfl, ?_, ?_⟩
  · intro h
    have hie : context.isEmpty = false := by
      cases hb : context.isEmpty with
      | false => rfl
      | true => exact absurd ((String.isEmpty_iff context).mp hb) h
    have htr : strTruthy (some context) = true := by
      simp [strTruthy, hie]
    refine ⟨"You are a helpful AI assistant powered by GPT-4. You have access to a knowledge base through RAG (Retrieval-Augmented Generation).\n      \n      "
        ++ contextLabel ++ "\n      \n      ",
      "\n      \n      Use this context to provide accurate and relevant responses. If the context doesn\x27t contain relevant information, you can still provide general assistance.\n      \n      Always be concise, helpful, and cite sources when using information from the provided context.", ?_⟩
    rw [systemContent, htr]
    simp [String.append_assoc]
  · intro h
    subst h
    decide

/-- Witness for C5: a concrete non-empty context is embedded verbatim, and
the empty context produces an instruction without the context label. -/
theorem chatResponder_instruction_witness :
    (∃ pre post, systemContent (some "CONTEXT-42") = pre ++ "CONTEXT-42" ++ post)
    ∧ ¬ (contextLabel.toList <:+: (systemContent (some "")).toList) :=
  ⟨(chatResponder_instruction [] "CONTEXT-42").2.1 (by decide),
   (chatResponder_instruction [] "").2.2 rfl⟩

/-- C6: for a plain-text upload, `processDocument` fails with the
empty-document error exactly when the file content is blank after
trimming; the failure happens before any embedding or upsert call, and a
non-blank document proceeds to chunking and embedding. -/
theorem processDocument_emptyRejection (fileText : String) (documentId : Nat)
    (documentName : String) (userId : Nat) (split : String → List String)
    (embed : String → Except String (List ℚ)) (upsertR : Except String Unit) :
    ((processDocument fileText documentId documentName userId "text/plain" split
        embed upsertR).1 = Except.error DocError.emptyDocument ↔ jsTrim fileText = "")
    ∧ (jsTrim fileText = "" →
        (processDocument fileText documentId documentName userId "text/plain" split
          embed upsertR).2 = [])
    ∧ (jsTrim fileText ≠ "" → ∃ rest,
        (processDocument fileText documentId documentName userId "text/plain" split
            embed upsertR).2 =
          (mkDocumentChunks (split fileText) documentId documentName userId).map
            (fun c => DocEvent.embedCall c.text) ++ rest) := by
  by_cases ht : jsTrim fileText = ""
  · refine ⟨⟨fun _ => ht, fun _ => ?_⟩, fun _ => ?_, fun hne => absurd ht hne⟩
    · simp [processDocument, ht]
    · simp [processDocument, ht]
  · refine ⟨⟨fun hctr => ?_, fun hblank => absurd hblank ht⟩,
      fun hblank => absurd hblank ht, fun _ => ?_⟩
    · cases hemb : embedAllE embed (mkDocumentChunks (split fileText) documentId
          documentName userId) with
      | error e => simp [processDocument, ht, hemb] at hctr
      | ok w =>
        cases hup : upsertR with
        | error e2 => simp [processDocument, ht, hemb, hup] at hctr
        | ok u => simp [processDocument, ht, hemb, hup] at hctr
    · cases hemb : embedAllE embed (mkDocumentChunks (split fileText) documentId
          documentName userId) with
      | error e => exact ⟨[], by simp [processDocument, ht, hemb]⟩
      | ok w =>
        cases hup : upsertR with
        | error e2 =>
          exact ⟨[DocEvent.upsertCall (mkDocumentChunks (split fileText) documentId
            documentName userId).length], by simp [processDocument, ht, hemb, hup]⟩
        | ok u =>
          exact ⟨[DocEvent.upsertCall (mkDocumentChunks (split fileText) documentId
            documentName userId).length], by simp [processDocument, ht, hemb, hup]⟩

/-- Witness for C6: the blank file is rejected as empty with no service
call, and a non-blank file is not. -/
theorem processDocument_emptyRejection_witness :
    (processDocument "" 1 "doc.txt" 1 "text/plain" (fun t => [t])
        (fun _ => Except.ok [1]) (Except.ok ())).1 = Except.error DocError.emptyDocument
    ∧ (processDocument "" 1 "doc.txt" 1 "text/plain" (fun t => [t])
        (fun _ => Except.ok [1]) (Except.ok ())).2 = [] :=
  ⟨(processDocument_emptyRejection "" 1 "doc.txt" 1 (fun t => [t])
      (fun _ => Except.ok [1]) (Except.ok ())).1.mpr (by decide),
   (processDocument_emptyRejection "" 1 "doc.txt" 1 (fun t => [t])
      (fun _ => Except.ok [1]) (Except.ok ())).2.1 (by decide)⟩

/-- C3: the realtime gateway rejects a `chat_message` whose user does not
own the session (absent session or owner mismatch) by emitting only the
error frame: the store is returned unchanged, so the session's message
count is unchanged. -/
theorem gatewayAuthAtomicity (st : Storage) (sessionId : Nat) (content : String)
    (userId : Nat) (ctx : String)
    (respond : List (String × String) → String → Except String String) (now : Nat)
    (h : ∀ s, getChatSession st sessionId = some s → s.userId ≠ userId) :
    handleChatMessage st sessionId content userId ctx respond now
        = (st, [OutMsg.errorMsg "Unauthorized"])
    ∧ messageCount (handleChatMessage st sessionId content userId ctx respond now).1
        sessionId = messageCount st sessionId := by
  have h1 : handleChatMessage st sessionId content userId ctx respond now
      = (st, [OutMsg.errorMsg "Unauthorized"]) := by
    unfold handleChatMessage
    cases hs : getChatSession st sessionId with
    | none => rfl
    | some s =>
      have hne := h s hs
      simp [hne]
  exact ⟨h1, by rw [h1]⟩

/-- Witness for C3: user 2 sending into a session owned by user 1. -/
theorem gatewayAuthAtomicity_witness :
    handleChatMessage ⟨[⟨1, 1, "t", none, 0, 0⟩], [], 1⟩ 1 "hi" 2 ""
        (fun _ _ => Except.ok "resp") 5
      = (⟨[⟨1, 1, "t", none, 0, 0⟩], [], 1⟩, [OutMsg.errorMsg "Unauthorized"]) :=
  (gatewayAuthAtomicity ⟨[⟨1, 1, "t", none, 0, 0⟩], [], 1⟩ 1 "hi" 2 ""
    (fun _ _ => Except.ok "resp") 5
    (by
      intro s hs
      have hv : (⟨1, 1, "t", none, 0, 0⟩ : ChatSession) = s := Option.some.inj hs
      rw [← hv]
      decide)).1

/-- Updating the cached last message of a stored session changes only that
record, and a later lookup sees the merged record. -/
lemma getChatSession_updateLastMessage (st : Storage) (id : Nat) (lm : String)
    (now : Nat) (s : ChatSession) (hs : getChatSession st id = some s) :
    getChatSession (updateChatSessionLastMessage st id lm now) id
      = some { s with lastMessage := some lm, updatedAt := now } := by
  have hfind : st.chatSessions.find? (fun x => x.id = id) = some s := hs
  have hsid : s.id = id := by
    have hps := List.find?_some hfind
    simpa using hps
  unfold updateChatSessionLastMessage
  rw [hfind]
  unfold getChatSession
  rw [List.find?_map]
  have hcomp : ((fun x : ChatSession => decide (x.id = id)) ∘
      (fun x : ChatSession =>
        if x.id = id then { x with lastMessage := some lm, updatedAt := now } else x))
      = fun x : ChatSession => decide (x.id = id) := by
    funext x
    by_cases hx : x.id = id
    · simp [hx]
    · simp [hx]
  rw [hcomp, hfind]
  simp [hsid]

/-- C9: after a successfully processed `chat_message`, the session's
cached `lastMessage` equals the preview of the user content: the content
verbatim when it has at most 100 characters, and its first 100 characters
followed by the ellipsis marker when longer. -/
theorem lastMessagePreviewTruncation (st : Storage) (sessionId : Nat) (content : String)
    (userId : Nat) (ctx : String)
    (respond : List (String × String) → String → Except String String) (now : Nat)
    (s : ChatSession) (txt : String)
    (hs : getChatSession st sessionId = some s) (hown : s.userId = userId)
    (hr : respond (gatewayHistory st sessionId content now) ctx = Except.ok txt) :
    (getChatSession (handleChatMessage st sessionId content userId ctx respond now).1
        sessionId).map ChatSession.lastMessage = some (some (lastMessagePreview content))
    ∧ (content.length ≤ 100 → lastMessagePreview content = content)
    ∧ (100 < content.length → lastMessagePreview content = content.take 100 ++ "...") := by
  refine ⟨?_, fun hle => ?_, fun hgt => ?_⟩
  · have hcond : ¬ (s.userId ≠ userId) := by simp [hown]
    unfold handleChatMessage
    rw [hs]
    simp only [if_neg hcond, hr]
    have hs2 : getChatSession (createMessage (createMessage st sessionId "user" content
        none now).1 sessionId "assistant" txt (if ctx.isEmpty then none else some true)
        now).1 sessionId = some s := hs
    rw [getChatSession_updateLastMessage _ _ _ _ s hs2]
    rfl
  · unfold lastMessagePreview
    rw [if_neg (by omega)]
  · unfold lastMessagePreview
    rw [if_pos hgt]

/-- Witness for C9: a 150-character content is previewed as its first 100
characters plus the ellipsis marker. -/
theorem lastMessagePreviewTruncation_witness :
    ((getChatSession (handleChatMessage ⟨[⟨1, 1, "t", none, 0, 0⟩], [], 1⟩ 1
          (String.mk (List.replicate 150 'a')) 1 "" (fun _ _ => Except.ok "resp") 5).1
        1).map ChatSession.lastMessage
      = some (some (lastMessagePreview (String.mk (List.replicate 150 'a')))))
    ∧ lastMessagePreview (String.mk (List.replicate 150 'a'))
      = String.mk (List.replicate 100 'a') ++ "..." :=
  ⟨(lastMessagePreviewTruncation ⟨[⟨1, 1, "t", none, 0, 0⟩], [], 1⟩ 1
      (String.mk (List.replicate 150 'a')) 1 "" (fun _ _ => Except.ok "resp") 5
      ⟨1, 1, "t", none, 0, 0⟩ "resp" rfl rfl rfl).1,
   by decide⟩

end RagChat
